import Mathlib

/-!
Verification of the Kora sponsorship tracking and rent reclaim engine.

This file gives a shallow embedding, in Lean 4, of the core logic of the
repository:

* the sponsorship classifier (`extractSponsoredAccounts` and its helpers,
  from `src/core/sponsorshipTracker.ts`),
* the registry ingestion loop (`ingestTransactionHistory`),
* the status refresher (`refreshAccountStatuses`),
* the safety validator (`validateAccount`, `hasRecentWrites` from
  `src/core/safeReclaimer.ts`), and
* the reclaim executor (`executeReclaim`).

Chain interaction (RPC reads, transaction dispatch) is modelled by passing
the responses the chain would give as explicit data; filesystem effects of
the registry persistence layer are modelled as an explicit event trace.
Addresses and signatures are strings, exactly as the source manipulates
them (`PublicKey.toString()` comparisons throughout).
-/

namespace Kora

/-- `accountType` of a `SponsoredAccount`: `"system" | "token" | "pda" | "unknown"`. -/
inductive AccountType where
  | system
  | token
  | pda
  | unknown
  deriving Repr, DecidableEq

/-- `status` of a `SponsoredAccount`: `"active" | "empty" | "closed" | "unknown"`. -/
inductive AccountStatus where
  | active
  | empty
  | closed
  | unknown
  deriving Repr, DecidableEq

/-- `sponsorshipConfidence`: `"high" | "medium" | "low"`. -/
inductive Confidence where
  | high
  | medium
  | low
  deriving Repr, DecidableEq

/-- The `SponsoredAccount` record of `sponsorshipTracker.ts`.
`lastChecked` is optional in the source (set only by the refresher). -/
structure SponsoredAccount where
  address : String
  creationTxSignature : String
  createdAt : Nat
  rentLamports : Nat
  owner : String
  accountType : AccountType
  dataSize : Nat
  sponsoredBy : String
  beneficiary : String
  status : AccountStatus
  lastChecked : Option Nat := none
  sponsorshipConfidence : Confidence
  deriving Repr, DecidableEq

/-- The `metrics` sub-record of the registry. -/
structure Metrics where
  totalAccountsSponsored : Nat
  totalRentLocked : Nat
  totalRentReclaimed : Nat
  totalAccountsClosed : Nat
  deriving Repr, DecidableEq

/-- The `SponsorshipRegistry` record (string timestamps of the source are
irrelevant to the verified logic and omitted). -/
structure Registry where
  operator : String
  lastProcessedSignature : Option String := none
  totalTransactionsProcessed : Nat
  accounts : List SponsoredAccount
  metrics : Metrics
  deriving Repr, DecidableEq

/-- A fresh registry, as built by `loadOrCreateRegistry` when no file exists. -/
def newRegistry (operator : String) : Registry :=
  { operator := operator
    totalTransactionsProcessed := 0
    accounts := []
    metrics := ⟨0, 0, 0, 0⟩ }

/-- `"11111111111111111111111111111111"`, the system program id. -/
def systemProgramId : String := "11111111111111111111111111111111"

/-- `TOKEN_PROGRAM_ID.toString()` of `@solana/spl-token`. -/
def tokenProgramId : String := "TokenkegQfeZyiNwAJbNbGKPFXCWuBvf9Ss623VQ5DA"

/-- The `knownPrograms` list of `isProgram` in `sponsorshipTracker.ts`
(the token program appears twice there: once via `TOKEN_PROGRAM_ID`,
once as a literal; the duplicate does not change membership). -/
def knownPrograms : List String :=
  [ systemProgramId
  , tokenProgramId
  , "TokenkegQfeZyiNwAJbNbGKPFXCWuBvf9Ss623VQ5DA"
  , "ATokenGPvbdGVxr1b2hvZbsiqW5xWH25efTNsLJA8knL"
  , "metaqbxxUerdq28cj1RbAWkYQm3ybzjb6a8bt518x1s"
  , "TokenzQdBNbLqP5VEhdkAS6EPFLC1PHnBqCXEpPxuEb"
  , "ComputeBudget111111111111111111111111111111" ]

/-- `isProgram`: membership in the known-program list. -/
def isProgram (address : String) : Bool :=
  knownPrograms.contains address

/-- `determineAccountType` of `sponsorshipTracker.ts` (a falsy owner means
system; the call site always passes a defaulted, non-empty owner). -/
def determineAccountType (owner : String) : AccountType :=
  if owner = "" then .system
  else if owner = tokenProgramId then .token
  else if owner = systemProgramId then .system
  else .pda

/-- One entry of `tx.transaction.message.accountKeys`. -/
structure AccountKey where
  pubkey : String
  signer : Bool
  deriving Repr, DecidableEq

/-- A parsed instruction, restricted to the shapes the classifier
pattern-matches on (`program`/`parsed.type` pairs); every other
instruction is `other`.  Optional fields model the `info.owner ||`,
`info.base ||`, `info.space ||` fallbacks of the source. -/
inductive ParsedInstruction where
  | createAccount (source newAccount : String) (lamports : Nat)
      (owner : Option String) (space : Option Nat)
  | createAccountWithSeed (source newAccount : String) (lamports : Nat)
      (owner : Option String) (base : Option String) (space : Option Nat)
  | createATA (payer account wallet : String)
  | other
  deriving Repr, DecidableEq

/-- A `ParsedTransactionWithMeta`, restricted to the fields the tracker
reads: the ordered account-key list, the instruction list, whether
`meta.err` is set, and the optional `blockTime`. -/
structure ParsedTx where
  accountKeys : List AccountKey
  instructions : List ParsedInstruction
  err : Bool
  blockTime : Option Nat
  deriving Repr, DecidableEq

/-- `determineBeneficiary`: if the account's owner is a known program, scan
the account keys from index 1 for a signer different from the operator;
fall back to the owner. -/
def determineBeneficiary (_accountAddress accountOwner operator : String)
    (tx : ParsedTx) : String :=
  if isProgram accountOwner then
    match (tx.accountKeys.drop 1).find?
        (fun k => k.signer && k.pubkey ≠ operator) with
    | some k => k.pubkey
    | none => accountOwner
  else accountOwner

/-- `calculateConfidence` of `sponsorshipTracker.ts`. -/
def calculateConfidence (beneficiary operator accountOwner : String) :
    Confidence :=
  if beneficiary ≠ operator && !isProgram beneficiary then .high
  else if isProgram accountOwner then .medium
  else .low

/-- `extractSponsoredAccounts`: classify one parsed transaction.
`nowFallback` stands for `Math.floor(Date.now() / 1000)`, used when the
transaction has no block time. -/
def extractSponsoredAccounts (operator : String) (nowFallback : Nat)
    (tx : ParsedTx) (signature : String) : List SponsoredAccount :=
  match tx.accountKeys.head? with
  | none => []
  | some feePayer =>
    if feePayer.pubkey ≠ operator then []
    else
      let blockTime := tx.blockTime.getD nowFallback
      tx.instructions.flatMap fun instruction =>
        match instruction with
        | .createAccount source newAccount lamports owner space =>
          if source ≠ operator then []
          else
            let accountOwner := owner.getD systemProgramId
            let beneficiary :=
              determineBeneficiary newAccount accountOwner operator tx
            let confidence :=
              calculateConfidence beneficiary operator accountOwner
            if confidence = .low ∧ beneficiary = operator then []
            else
              [ { address := newAccount
                  creationTxSignature := signature
                  createdAt := blockTime
                  rentLamports := lamports
                  owner := accountOwner
                  accountType := determineAccountType accountOwner
                  dataSize := space.getD 0
                  sponsoredBy := operator
                  beneficiary := beneficiary
                  status := .active
                  sponsorshipConfidence := confidence } ]
        | .createAccountWithSeed source newAccount lamports owner base space =>
          if source ≠ operator then []
          else
            let accountOwner := owner.getD systemProgramId
            let beneficiary := base.getD accountOwner
            let confidence :=
              calculateConfidence beneficiary operator accountOwner
            if confidence = .low ∧ beneficiary = operator then []
            else
              [ { address := newAccount
                  creationTxSignature := signature
                  createdAt := blockTime
                  rentLamports := lamports
                  owner := accountOwner
                  accountType := .pda
                  dataSize := space.getD 0
                  sponsoredBy := operator
                  beneficiary := beneficiary
                  status := .active
                  sponsorshipConfidence := confidence } ]
        | .createATA payer account wallet =>
          if payer ≠ operator then []
          else
            let beneficiary := wallet
            let confidence :=
              calculateConfidence beneficiary operator tokenProgramId
            if beneficiary = operator then []
            else
              [ { address := account
                  creationTxSignature := signature
                  createdAt := blockTime
                  rentLamports := 2039280
                  owner := tokenProgramId
                  accountType := .token
                  dataSize := 165
                  sponsoredBy := operator
                  beneficiary := beneficiary
                  status := .active
                  sponsorshipConfidence := confidence } ]
        | .other => []

/-- Some account of the list was created by this signature. -/
def sigIn (accs : List SponsoredAccount) (signature : String) : Bool :=
  accs.any (fun a => a.creationTxSignature = signature)

/-- Some account of the list has this address. -/
def trackedIn (accs : List SponsoredAccount) (address : String) : Bool :=
  accs.any (fun a => a.address = address)

/-- `isSignatureProcessed`: some tracked account was created by this
signature. -/
def isSignatureProcessed (reg : Registry) (signature : String) : Bool :=
  sigIn reg.accounts signature

/-- `isAccountTracked`: the address is already in the registry. -/
def isAccountTracked (reg : Registry) (address : String) : Bool :=
  trackedIn reg.accounts address

/-- The effect of the per-candidate body of the ingestion loop: append the
candidate and bump the sponsorship counters unless the address is already
tracked. -/
def ingestCandidate (reg : Registry) (c : SponsoredAccount) : Registry :=
  if isAccountTracked reg c.address then reg
  else
    { reg with
      accounts := reg.accounts ++ [c]
      metrics :=
        { reg.metrics with
          totalAccountsSponsored := reg.metrics.totalAccountsSponsored + 1
          totalRentLocked := reg.metrics.totalRentLocked + c.rentLamports } }

/-- Outcome of `getParsedTransaction` for one signature: the call threw,
returned `null`, or returned a parsed transaction. -/
inductive FetchResult where
  | failed
  | notFound
  | tx (t : ParsedTx)
  deriving Repr, DecidableEq

/-- One iteration of `ingestTransactionHistory`'s loop, for one signature of
the fetched history.  A signature already recorded in the registry is
skipped before the fetch; a throwing fetch only counts an error; otherwise
the transaction counter is bumped and, when the transaction succeeded,
its sponsored-account candidates are ingested. -/
def ingestStep (operator : String) (nowFallback : Nat) (reg : Registry)
    (item : String × FetchResult) : Registry :=
  if isSignatureProcessed reg item.1 then reg
  else
    match item.2 with
    | .failed => reg
    | .notFound =>
      { reg with
        totalTransactionsProcessed := reg.totalTransactionsProcessed + 1 }
    | .tx t =>
      let reg' :=
        if t.err then reg
        else
          (extractSponsoredAccounts operator nowFallback t item.1).foldl
            ingestCandidate reg
      { reg' with
        totalTransactionsProcessed := reg'.totalTransactionsProcessed + 1 }

/-- `ingestTransactionHistory`, as a function of the fetched signature
history (the chain's response for each signature given explicitly): fold
the per-signature step over the history, then record the last signature
as the watermark. -/
def ingestTransactionHistory (operator : String) (nowFallback : Nat)
    (reg : Registry) (history : List (String × FetchResult)) : Registry :=
  let reg' := history.foldl (ingestStep operator nowFallback) reg
  match history.getLast? with
  | some item => { reg' with lastProcessedSignature := some item.1 }
  | none => reg'

/-- On-chain account state as returned by `getAccountInfo`: lamport balance
and raw data bytes. -/
structure AccountInfo where
  lamports : Nat
  data : List Nat
  deriving Repr, DecidableEq

/-- Result of one `getAccountInfo` read during the status refresh: the read
threw, the account is missing (`null`), or it is present with state. -/
inductive ChainLookup where
  | err
  | missing
  | found (info : AccountInfo)
  deriving Repr, DecidableEq

/-- `data.readBigUInt64LE(off)`: the unsigned little-endian 64-bit value at
byte offset `off` (the source only calls it when eight bytes are
available). -/
def readUInt64LE (data : List Nat) (off : Nat) : Nat :=
  (List.range 8).foldl (fun acc i => acc + data.getD (off + i) 0 * 256 ^ i) 0

/-- The status computed by one iteration of `refreshAccountStatuses` for an
account, given the chain's answer for its address.  On a read error the
prior status is kept. -/
def refreshStatus (acct : SponsoredAccount) (lookup : ChainLookup) :
    AccountStatus :=
  match lookup with
  | .err => acct.status
  | .missing => .closed
  | .found info =>
    if acct.accountType = .token then
      if info.data.length ≥ 72 then
        if readUInt64LE info.data 64 = 0 then .empty else .active
      else .active
    else if info.data.length = 0 || info.data.all (fun b => b = 0) then .empty
    else .active

/-- One account's update inside `refreshAccountStatuses`: the status is
recomputed and `lastChecked` stamped, except on a read error, where
the account is left untouched. -/
def refreshOne (chain : String → ChainLookup) (now : Nat)
    (acct : SponsoredAccount) : SponsoredAccount :=
  match chain acct.address with
  | .err => acct
  | lookup =>
    { acct with
      status := refreshStatus acct lookup
      lastChecked := some now }

/-- `refreshAccountStatuses`: update every tracked account from the chain,
bumping `totalAccountsClosed` for each account newly found missing. -/
def refreshAccountStatuses (chain : String → ChainLookup) (now : Nat)
    (reg : Registry) : Registry :=
  let newlyClosed :=
    (reg.accounts.filter fun a =>
      chain a.address = .missing && a.status ≠ .closed).length
  { reg with
    accounts := reg.accounts.map (refreshOne chain now)
    metrics :=
      { reg.metrics with
        totalAccountsClosed := reg.metrics.totalAccountsClosed + newlyClosed } }

/-- Close the first account with the given address (`accounts.find` in the
source mutates only the first match). -/
def closeFirst : List SponsoredAccount → String → List SponsoredAccount
  | [], _ => []
  | a :: rest, address =>
    if a.address = address then { a with status := .closed } :: rest
    else a :: closeFirst rest address

/-- `recordReclaim`: mark the (first) account with this address closed and
bump the reclaim counters when the address is tracked (finding none is a
no-op). -/
def recordReclaim (reg : Registry) (address : String)
    (lamportsReclaimed : Nat) : Registry :=
  if reg.accounts.any (fun a => a.address = address) then
    { reg with
      accounts := closeFirst reg.accounts address
      metrics :=
        { reg.metrics with
          totalRentReclaimed :=
            reg.metrics.totalRentReclaimed + lamportsReclaimed
          totalAccountsClosed := reg.metrics.totalAccountsClosed + 1 } }
  else reg

/-- `SafetyConfig` of `safeReclaimer.ts`. -/
structure SafetyConfig where
  minInactiveDays : Nat
  recentWriteDays : Nat
  denyList : List String
  allowList : Option (List String)
  maxReclaimPerAccount : Nat
  maxAccountsPerRun : Nat
  highValueThreshold : Nat
  deriving Repr, DecidableEq

/-- `DEFAULT_SAFETY_CONFIG` (1 SOL per-account cap, 0.1 SOL high-value
threshold, in lamports). -/
def DEFAULT_SAFETY_CONFIG : SafetyConfig :=
  { minInactiveDays := 7
    recentWriteDays := 3
    denyList := []
    allowList := none
    maxReclaimPerAccount := 1000000000
    maxAccountsPerRun := 50
    highValueThreshold := 100000000 }

/-- `riskLevel`: `"safe" | "medium" | "high" | "blocked"`. -/
inductive RiskLevel where
  | safe
  | medium
  | high
  | blocked
  deriving Repr, DecidableEq

/-- The `reason` string of each return site of `validateAccount`, abstracted
to a tag (the source strings interpolate run-time numbers; the tag
identifies the return site, which is what the reported reason
distinguishes):
* `inDenyList` — "Account is in deny list - BLOCKED"
* `notInAllowList` — "Account is not in allow list"
* `tooYoung` — "Account is only N days old (min: M)"
* `recentActivity` — "Account has recent activity in last N days"
* `alreadyClosed` — "Account already closed"
* `exceedsMax` — "Account value (x SOL) exceeds max (y SOL)"
* `nonzeroTokenBalance` — "Token account has N tokens - DO NOT TOUCH"
* `notTokenOwner` — "Cannot close: not the token account owner"
* `pdaManualReview` — "PDA accounts require manual review - skipping"
* `systemHasData` — "System account has data - not empty"
* `safeToReclaim` — "Safe to reclaim: ..." -/
inductive ValidationReason where
  | inDenyList
  | notInAllowList
  | tooYoung
  | recentActivity
  | alreadyClosed
  | exceedsMax
  | nonzeroTokenBalance
  | notTokenOwner
  | pdaManualReview
  | systemHasData
  | safeToReclaim
  deriving Repr, DecidableEq

/-- The `checks` record of `ValidationResult`. -/
structure ValidationChecks where
  inDenyList : Bool
  hasRecentWrites : Bool
  meetsInactivityThreshold : Bool
  isEmptyOrZeroBalance : Bool
  ownershipVerified : Bool
  belowMaxReclaim : Bool
  deriving Repr, DecidableEq

/-- `ValidationResult` of `safeReclaimer.ts`. -/
structure ValidationResult where
  address : String
  canReclaim : Bool
  reason : ValidationReason
  riskLevel : RiskLevel
  checks : ValidationChecks
  deriving Repr, DecidableEq

/-- One entry of the signature history returned by
`getSignaturesForAddress` (only `blockTime` is read; `null` and `0` are
both falsy in the source and modelled by `none` and `some 0`). -/
structure SigInfo where
  blockTime : Option Nat
  deriving Repr, DecidableEq

/-- On-chain token-account state as returned by `getAccount` of
`@solana/spl-token`: the token amount and the owner wallet. -/
structure TokenAccountState where
  amount : Nat
  owner : String
  deriving Repr, DecidableEq

/-- Result of the `getAccount` token read: the call threw, or returned
state. -/
inductive TokenLookup where
  | err
  | ok (state : TokenAccountState)
  deriving Repr, DecidableEq

/-- The chain responses `validateAccount` consumes for one account:
the current time (`Date.now()`, milliseconds), the signature-history
lookup of the recent-write check (`Except` models a thrown error), the
`getAccountInfo` read, and the token-account read. -/
structure ChainEnv where
  now : Int
  sigHistory : Except Unit (List SigInfo)
  accountInfo : Option AccountInfo
  tokenLookup : TokenLookup
  deriving Repr

/-- `hasRecentWrites`: any of the latest signatures has a truthy block time
inside the recent-write window; an empty history or a thrown lookup both
yield `false`. -/
def hasRecentWrites (cfg : SafetyConfig) (env : ChainEnv) : Bool :=
  match env.sigHistory with
  | .error _ => false
  | .ok sigs =>
    if sigs.length = 0 then false
    else
      let recentThreshold : Int :=
        env.now - cfg.recentWriteDays * 24 * 60 * 60 * 1000
      sigs.any fun s =>
        match s.blockTime with
        | some t => t ≠ 0 && (t : Int) * 1000 > recentThreshold
        | none => false

/-- The all-checks-passed return of `validateAccount`. -/
def allChecksPassed (cfg : SafetyConfig) (acct : SponsoredAccount)
    (info : AccountInfo) (checks : ValidationChecks) : ValidationResult :=
  { address := acct.address
    canReclaim := true
    reason := .safeToReclaim
    riskLevel :=
      if info.lamports > cfg.highValueThreshold then .medium else .safe
    checks := checks }

/-- `validateAccount` of `safeReclaimer.ts`: the layered safety pipeline,
evaluated in source order with short-circuit returns.  `keypair` is the
loaded keypair's public key (`none` when no keypair was loaded). -/
def validateAccount (cfg : SafetyConfig) (keypair : Option String)
    (acct : SponsoredAccount) (env : ChainEnv) : ValidationResult :=
  let checks0 : ValidationChecks :=
    { inDenyList := false
      hasRecentWrites := false
      meetsInactivityThreshold := false
      isEmptyOrZeroBalance := false
      ownershipVerified := false
      belowMaxReclaim := false }
  -- CHECK 1: deny list
  if cfg.denyList.contains acct.address then
    { address := acct.address, canReclaim := false, reason := .inDenyList
      riskLevel := .blocked, checks := { checks0 with inDenyList := true } }
  -- CHECK 2: allow list (if specified)
  else if (match cfg.allowList with
           | some l => !l.contains acct.address
           | none => false) then
    { address := acct.address, canReclaim := false, reason := .notInAllowList
      riskLevel := .blocked, checks := checks0 }
  else
    -- CHECK 3: inactivity threshold
    let accountAge : Int := env.now - (acct.createdAt : Int) * 1000
    let minAge : Int := (cfg.minInactiveDays : Int) * 24 * 60 * 60 * 1000
    let checks1 := { checks0 with meetsInactivityThreshold := accountAge ≥ minAge }
    if !checks1.meetsInactivityThreshold then
      { address := acct.address, canReclaim := false, reason := .tooYoung
        riskLevel := .medium, checks := checks1 }
    else
      -- CHECK 4: recent writes
      let checks2 := { checks1 with hasRecentWrites := hasRecentWrites cfg env }
      if checks2.hasRecentWrites then
        { address := acct.address, canReclaim := false
          reason := .recentActivity, riskLevel := .high, checks := checks2 }
      else
        -- CHECK 5: current account state
        match env.accountInfo with
        | none =>
          { address := acct.address, canReclaim := false
            reason := .alreadyClosed, riskLevel := .safe, checks := checks2 }
        | some info =>
          -- CHECK 6: below max reclaim
          let checks3 :=
            { checks2 with
              belowMaxReclaim := info.lamports ≤ cfg.maxReclaimPerAccount }
          if !checks3.belowMaxReclaim then
            { address := acct.address, canReclaim := false
              reason := .exceedsMax, riskLevel := .high, checks := checks3 }
          else
            -- CHECK 7: account-type-specific validation
            match acct.accountType with
            | .token =>
              match env.tokenLookup with
              | .ok ta =>
                let checks4 :=
                  { checks3 with
                    isEmptyOrZeroBalance := ta.amount = 0
                    ownershipVerified :=
                      match keypair with
                      | some k => ta.owner = k
                      | none => false }
                if !checks4.isEmptyOrZeroBalance then
                  { address := acct.address, canReclaim := false
                    reason := .nonzeroTokenBalance, riskLevel := .blocked
                    checks := checks4 }
                else if !checks4.ownershipVerified then
                  { address := acct.address, canReclaim := false
                    reason := .notTokenOwner, riskLevel := .medium
                    checks := checks4 }
                else allChecksPassed cfg acct info checks4
              | .err =>
                -- the catch block: mark the balance check passed and fall
                -- through to the all-checks-passed return
                allChecksPassed cfg acct info
                  { checks3 with isEmptyOrZeroBalance := true }
            | .pda =>
              { address := acct.address, canReclaim := false
                reason := .pdaManualReview, riskLevel := .high
                checks := checks3 }
            | _ =>
              let checks4 :=
                { checks3 with
                  isEmptyOrZeroBalance :=
                    info.data.length = 0 || info.data.all (fun b => b = 0) }
              if !checks4.isEmptyOrZeroBalance then
                { address := acct.address, canReclaim := false
                  reason := .systemHasData, riskLevel := .medium
                  checks := checks4 }
              else allChecksPassed cfg acct info checks4

/-- One per-account record of a reclaim run (`ReclaimTransaction`).
`lamportsReclaimed` is an `Int` because the live path computes
`lamportsBefore - lamportsAfter` on JavaScript numbers. -/
structure ReclaimTransaction where
  address : String
  lamportsBefore : Nat
  lamportsAfter : Nat
  lamportsReclaimed : Int
  txSignature : String
  timestamp : String
  treasuryBalanceBefore : Nat
  treasuryBalanceAfter : Nat
  verified : Bool
  deriving Repr, DecidableEq

/-- `ReclaimReport` of `safeReclaimer.ts`. -/
structure ReclaimReport where
  runId : String
  timestamp : String
  operator : String
  treasury : String
  dryRun : Bool
  accountsAnalyzed : Nat
  accountsValidated : Nat
  accountsReclaimed : Nat
  accountsFailed : Nat
  totalLamportsReclaimed : Int
  transactions : List ReclaimTransaction
  errors : List (String × String)
  deriving Repr, DecidableEq

/-- The chain interactions of `executeReclaim` for one candidate account:
the responses feeding its `validateAccount` call, the balance re-read of
step 2, and — for a live run — the outcome of dispatching the closing
transaction (`Except` error models the caught exception), the account's
lamports after (`infoAfter?.lamports || 0`) and the treasury balance
after. -/
structure ReclaimEnv where
  vEnv : ChainEnv
  balanceInfo : Option AccountInfo
  dispatch : Except String String
  lamportsAfter : Nat
  treasuryAfter : Nat
  deriving Repr

/-- Observable outcome of `executeReclaim`: the report it returns, plus the
signatures of the on-chain transactions actually confirmed and the
addresses for which the per-account success callback fired. -/
structure ExecOutcome where
  report : ReclaimReport
  sentTxs : List String
  callbacks : List String
  deriving Repr

/-- The body of `executeReclaim`'s loop for one candidate. -/
def reclaimStep (cfg : SafetyConfig) (keypair : Option String)
    (dryRun : Bool) (timestamp : String) (treasuryBefore : Nat)
    (st : ExecOutcome) (item : SponsoredAccount × ReclaimEnv) : ExecOutcome :=
  let acct := item.1
  let env := item.2
  -- STEP 1: validate; rejected accounts are skipped, not failed
  let validation := validateAccount cfg keypair acct env.vEnv
  if !validation.canReclaim then st
  else
    let st :=
      { st with report :=
          { st.report with
            accountsValidated := st.report.accountsValidated + 1 } }
    -- STEP 2: current balance
    match env.balanceInfo with
    | none => st
    | some info =>
      let lamportsBefore := info.lamports
      if dryRun then
        -- dry run: record a simulated outcome, touch nothing
        { st with report :=
            { st.report with
              accountsReclaimed := st.report.accountsReclaimed + 1
              totalLamportsReclaimed :=
                st.report.totalLamportsReclaimed + lamportsBefore
              transactions := st.report.transactions ++
                [ { address := acct.address
                    lamportsBefore := lamportsBefore
                    lamportsAfter := 0
                    lamportsReclaimed := lamportsBefore
                    txSignature := "DRY_RUN"
                    timestamp := timestamp
                    treasuryBalanceBefore := treasuryBefore
                    treasuryBalanceAfter := treasuryBefore + lamportsBefore
                    verified := true } ] } }
      else
        match keypair with
        | none =>
          { st with report :=
              { st.report with
                accountsFailed := st.report.accountsFailed + 1
                errors := st.report.errors ++
                  [(acct.address, "No keypair")] } }
        | some _ =>
          -- STEP 3/4: dispatch the closing transaction and verify
          match env.dispatch with
          | .ok txSignature =>
            let verified := env.treasuryAfter > treasuryBefore
            { report :=
                { st.report with
                  accountsReclaimed := st.report.accountsReclaimed + 1
                  totalLamportsReclaimed :=
                    st.report.totalLamportsReclaimed +
                      ((lamportsBefore : Int) - env.lamportsAfter)
                  transactions := st.report.transactions ++
                    [ { address := acct.address
                        lamportsBefore := lamportsBefore
                        lamportsAfter := env.lamportsAfter
                        lamportsReclaimed :=
                          (lamportsBefore : Int) - env.lamportsAfter
                        txSignature := txSignature
                        timestamp := timestamp
                        treasuryBalanceBefore := treasuryBefore
                        treasuryBalanceAfter := env.treasuryAfter
                        verified := verified } ] }
              sentTxs := st.sentTxs ++ [txSignature]
              callbacks := st.callbacks ++ [acct.address] }
          | .error msg =>
            { st with report :=
                { st.report with
                  accountsFailed := st.report.accountsFailed + 1
                  errors := st.report.errors ++ [(acct.address, msg)] } }

/-- `executeReclaim`: build the report skeleton, truncate the candidate
list to the per-run cap, and fold the per-account step.  `runId` and
`timestamp` stand for the `Date`-derived strings; `treasuryBefore` is the
treasury balance sampled once before the batch. -/
def executeReclaim (cfg : SafetyConfig) (keypair : Option String)
    (treasury : String) (candidates : List (SponsoredAccount × ReclaimEnv))
    (dryRun : Bool) (runId timestamp : String) (treasuryBefore : Nat) :
    ExecOutcome :=
  let report0 : ReclaimReport :=
    { runId := runId
      timestamp := timestamp
      operator := ((candidates.head?).map (fun c => c.1.sponsoredBy)).getD
        "unknown"
      treasury := treasury
      dryRun := dryRun
      accountsAnalyzed := candidates.length
      accountsValidated := 0
      accountsReclaimed := 0
      accountsFailed := 0
      totalLamportsReclaimed := 0
      transactions := []
      errors := [] }
  let toProcess := candidates.take cfg.maxAccountsPerRun
  toProcess.foldl (reclaimStep cfg keypair dryRun timestamp treasuryBefore)
    { report := report0, sentTxs := [], callbacks := [] }

/-!
Persistence and locking.  `saveRegistry` writes a temp file then renames it
over the registry path; `acquireLock`/`releaseLock` implement an advisory
lock file with a five-minute staleness timeout.  The filesystem effects of
the mutating operations are modelled as an event trace.
-/

/-- A filesystem event of the registry persistence layer. -/
inductive FsEvent where
  | lockAcquired
  | lockReleased
  | writeTemp
  | renameCommit
  deriving Repr, DecidableEq

/-- State of the advisory lock file: whether it exists and its age in
milliseconds. -/
structure LockState where
  present : Bool
  ageMs : Nat
  deriving Repr, DecidableEq

/-- `acquireLock` of `sponsorshipTracker.ts`: fail when a fresh
(younger than five minutes) lock file exists, otherwise (re)create it.
The function is defined in the source but has no call site. -/
def acquireLock (lock : LockState) : Bool :=
  if lock.present then
    if lock.ageMs < 5 * 60 * 1000 then false
    else true
  else true

/-- The filesystem events of one `saveRegistry` call: write the temp file,
then rename it over the registry (no lock interaction). -/
def saveRegistryEvents : List FsEvent :=
  [.writeTemp, .renameCommit]

/-- The filesystem events of one `ingestTransactionHistory` run: the single
unconditional `saveRegistry` at the end (no lock function is ever
invoked), independent of the state of the lock file. -/
def ingestTransactionHistoryEvents (_lock : LockState)
    (_history : List (String × FetchResult)) : List FsEvent :=
  saveRegistryEvents

/-- The filesystem events of one `refreshAccountStatuses` run: the single
`saveRegistry` at the end, independent of the lock file. -/
def refreshAccountStatusesEvents (_lock : LockState) : List FsEvent :=
  saveRegistryEvents

/-- The filesystem events of one `recordReclaim` call: `saveRegistry` when
the address is tracked, nothing otherwise; the lock is never consulted. -/
def recordReclaimEvents (_lock : LockState) (reg : Registry)
    (address : String) : List FsEvent :=
  if reg.accounts.any (fun a => a.address = address) then saveRegistryEvents
  else []

/-- Number of lock-acquire events in a trace (the trace holds the lock at
its end only if some acquire appears and is unreleased; with no acquire
at all, the lock is never held). -/
def lockAcquisitions (events : List FsEvent) : Nat :=
  (events.filter (fun e => e = .lockAcquired)).length

/-!
Auxiliary notions for the ingestion-idempotence proof.
-/

/-- A history item is `absorbed` by an account list when re-running the
ingestion step over that list cannot change the accounts or the
sponsorship counters: either its signature is already recorded, or it
carries no successful transaction, or every candidate it classifies to is
already tracked by address. -/
def absorbs (operator : String) (nowFallback : Nat)
    (accs : List SponsoredAccount) (item : String × FetchResult) : Prop :=
  sigIn accs item.1 = true ∨
  match item.2 with
  | .tx t =>
    t.err = true ∨
    ∀ c ∈ extractSponsoredAccounts operator nowFallback t item.1,
      trackedIn accs c.address = true
  | _ => True

/-!
Concrete inputs used to settle the individual claims.
-/

/-- A pure self-transaction: the operator `"OP"` is fee payer and sole
signer, and the only instruction is a `createAccountWithSeed` whose rent
source and `base` are both the operator, with the created account owned
by the token program. -/
def txSeedSelf : ParsedTx :=
  { accountKeys := [⟨"OP", true⟩]
    instructions :=
      [.createAccountWithSeed "OP" "NEW" 12345 (some tokenProgramId)
        (some "OP") (some 100)]
    err := false
    blockTime := some 500 }

/-- The candidate the classifier produces for `txSeedSelf`. -/
def recSeedSelf : SponsoredAccount :=
  { address := "NEW"
    creationTxSignature := "SIG"
    createdAt := 500
    rentLamports := 12345
    owner := tokenProgramId
    accountType := .pda
    dataSize := 100
    sponsoredBy := "OP"
    beneficiary := "OP"
    status := .active
    sponsorshipConfidence := .medium }

/-- A tracked token account (the ATA sponsored for wallet `"U1"`). -/
def tokAcctW : SponsoredAccount :=
  { address := "ATA1"
    creationTxSignature := "T1"
    createdAt := 0
    rentLamports := 2039280
    owner := tokenProgramId
    accountType := .token
    dataSize := 165
    sponsoredBy := "OP1"
    beneficiary := "U1"
    status := .empty
    sponsorshipConfidence := .high }

/-- Validation environment where the token-account read throws: the
account is old, has an empty recent history, exists with the ATA rent
balance, and `getAccount` fails. -/
def envTokenErr : ChainEnv :=
  { now := 1000000000000
    sigHistory := .ok []
    accountInfo := some ⟨2039280, []⟩
    tokenLookup := .err }

/-- Validation environment where the token account reads back with zero
balance but owned by wallet `"U1"`, not the caller. -/
def envNotOwner : ChainEnv :=
  { now := 1000000000000
    sigHistory := .ok []
    accountInfo := some ⟨2039280, []⟩
    tokenLookup := .ok ⟨0, "U1"⟩ }

/-- Validation environment whose signature-history lookup throws. -/
def envSigErr : ChainEnv :=
  { now := 1000000000000
    sigHistory := .error ()
    accountInfo := none
    tokenLookup := .err }

/-- `tokAcctW`, already marked closed (e.g. by a recorded reclaim). -/
def closedTok : SponsoredAccount :=
  { tokAcctW with status := .closed }

/-- On-chain token-account state with a nonzero balance: 64 bytes of
mint/owner data, the little-endian amount `7`, then padding to the
165-byte token layout. -/
def infoNonzero : AccountInfo :=
  ⟨2039280, List.replicate 64 1 ++ [7, 0, 0, 0, 0, 0, 0, 0] ++
    List.replicate 93 0⟩

/-- On-chain token-account state with a zero balance. -/
def infoZero : AccountInfo :=
  ⟨2039280, List.replicate 64 1 ++ List.replicate 101 0⟩

/-- A chain on which every address reads back as `infoNonzero`. -/
def chainNonzero : String → ChainLookup :=
  fun _ => .found infoNonzero

/-- A chain on which every read throws. -/
def chainErr : String → ChainLookup :=
  fun _ => .err

/-- A registry tracking only the closed token account. -/
def regClosed : Registry :=
  { operator := "OP1"
    totalTransactionsProcessed := 1
    accounts := [closedTok]
    metrics := ⟨1, 2039280, 0, 1⟩ }

/-- A fresh advisory lock file, 1000 ms old: another process is running. -/
def freshLock : LockState :=
  ⟨true, 1000⟩

/-- The transaction of the C6 scenario, for arbitrary operator, new
account, wallet and block time. -/
def ataTx (op acctAddr wallet : String) (blockTime : Option Nat) : ParsedTx :=
  { accountKeys := [⟨op, true⟩]
    instructions := [.createATA op acctAddr wallet]
    err := false
    blockTime := blockTime }

/-- The tracked account the C6 scenario must produce. -/
def ataRec (op acctAddr wallet signature : String) (createdAt : Nat) :
    SponsoredAccount :=
  { address := acctAddr
    creationTxSignature := signature
    createdAt := createdAt
    rentLamports := 2039280
    owner := tokenProgramId
    accountType := .token
    dataSize := 165
    sponsoredBy := op
    beneficiary := wallet
    status := .active
    sponsorshipConfidence := .high }

/-!
## Theorems
-/

/-- **C1.** A self-transaction is *not* always dropped: for the
transaction `txSeedSelf` — fee payer `"OP"`, a single
`createAccountWithSeed` instruction whose rent source and `base` both
equal the operator (so the beneficiary resolves to the operator), owner a
known infrastructure program — the classifier records one candidate whose
beneficiary equals its sponsor.  This evaluates the code at the failing
input of the claim: the claim states such classification yields zero
candidates. -/
theorem c1_seeded_self_transaction_recorded :
    extractSponsoredAccounts "OP" 0 txSeedSelf "SIG" = [recSeedSelf] ∧
    recSeedSelf.beneficiary = recSeedSelf.sponsoredBy ∧
    recSeedSelf.sponsoredBy = "OP" ∧
    txSeedSelf.accountKeys.head?.map (fun k => k.pubkey) = some "OP" :=
  ⟨rfl, rfl, rfl, rfl⟩

/-- **C2.** When the token-account read throws, `validateAccount` returns
`canReclaim = true` even though ownership was never verified: the account
`tokAcctW` is of token kind, the environment `envTokenErr` makes
`getAccount` throw, and the result is reclaimable with
`ownershipVerified = false` — the ownership gate of the claim does not
hold on the error path. -/
theorem c2_token_error_path_reclaimable_without_ownership :
    tokAcctW.accountType = .token ∧
    envTokenErr.tokenLookup = .err ∧
    (validateAccount DEFAULT_SAFETY_CONFIG (some "OPKEY") tokAcctW
      envTokenErr).canReclaim = true ∧
    (validateAccount DEFAULT_SAFETY_CONFIG (some "OPKEY") tokAcctW
      envTokenErr).checks.ownershipVerified = false :=
  ⟨rfl, rfl, rfl, rfl⟩

/-- **C5.** The registry is persisted without the advisory lock: even while
another process holds a fresh lock (`acquireLock` would refuse it), an
ingestion run's filesystem trace still commits the registry file and
contains no lock acquisition at all — the lock functions exist but are
never invoked by any mutating operation. -/
theorem c5_persist_without_lock :
    acquireLock freshLock = false ∧
    ingestTransactionHistoryEvents freshLock [("T1", .failed)] =
      saveRegistryEvents ∧
    FsEvent.renameCommit ∈
      ingestTransactionHistoryEvents freshLock [("T1", .failed)] ∧
    lockAcquisitions
      (ingestTransactionHistoryEvents freshLock [("T1", .failed)]) = 0 ∧
    refreshAccountStatusesEvents freshLock = saveRegistryEvents ∧
    lockAcquisitions (recordReclaimEvents freshLock regClosed "ATA1") = 0 :=
  ⟨rfl, rfl, by decide, rfl, rfl, rfl⟩

set_option maxRecDepth 4000 in
/-- **C3 counterexample.** `Closed` is not sticky against a present chain
account: refreshing the registry `regClosed` (whose only account is the
closed token account `closedTok`) on a chain that returns live token data
for its address reverts the status to `Active`. -/
theorem c3_closed_reverted_counterexample :
    closedTok.status = .closed ∧
    closedTok ∈ regClosed.accounts ∧
    (refreshAccountStatuses chainNonzero 5 regClosed).accounts.map
      (fun a => a.status) = [.active] :=
  ⟨rfl, by decide, by decide⟩

/-- **C8 counterexample.** A zero-balance token account whose recorded
owner is not the caller is rejected at risk level `Medium`, not
`Blocked`, as the claim states: under `envNotOwner` (owner `"U1"`, caller
key `"OPKEY"`) validation fails with the not-the-owner reason and a
non-blocked risk level. -/
theorem c8_not_owner_risk_counterexample :
    (validateAccount DEFAULT_SAFETY_CONFIG (some "OPKEY") tokAcctW
      envNotOwner).canReclaim = false ∧
    (validateAccount DEFAULT_SAFETY_CONFIG (some "OPKEY") tokAcctW
      envNotOwner).reason = .notTokenOwner ∧
    (validateAccount DEFAULT_SAFETY_CONFIG (some "OPKEY") tokAcctW
      envNotOwner).riskLevel = .medium ∧
    (validateAccount DEFAULT_SAFETY_CONFIG (some "OPKEY") tokAcctW
      envNotOwner).riskLevel ≠ .blocked :=
  ⟨rfl, rfl, rfl, by decide⟩

/-- **C3 (amended).** `Closed` is sticky exactly as far as the chain
cooperates: a tracked account already marked closed keeps status
`Closed` across a run of `refreshAccountStatuses` whenever the chain
reports its address missing or the read errors; its refreshed image is in
the refreshed registry. -/
theorem c3_closed_sticky_when_not_found
    (chain : String → ChainLookup) (now : Nat) (reg : Registry)
    (a : SponsoredAccount) (ha : a ∈ reg.accounts)
    (hc : a.status = .closed)
    (hm : chain a.address = .missing ∨ chain a.address = .err) :
    refreshOne chain now a ∈ (refreshAccountStatuses chain now reg).accounts ∧
    (refreshOne chain now a).status = .closed := by
  constructor
  · exact List.mem_map_of_mem (refreshOne chain now) ha
  · rcases hm with hm | hm
    · simp [refreshOne, hm, refreshStatus]
    · simp [refreshOne, hm, hc]

/-- Witness for the amended C3 statement, at the closed token account of
`regClosed` on a chain whose reads all error. -/
theorem c3_closed_sticky_when_not_found_witness :
    refreshOne chainErr 5 closedTok ∈
      (refreshAccountStatuses chainErr 5 regClosed).accounts ∧
    (refreshOne chainErr 5 closedTok).status = .closed :=
  c3_closed_sticky_when_not_found chainErr 5 regClosed closedTok
    (by decide) rfl (Or.inr rfl)

/-- **C9.** For a token-kind account found present on chain, the refreshed
status is `Empty` exactly when the data is at least 72 bytes long and the
little-endian 64-bit amount at byte offset 64 is zero; data shorter than
the token layout defaults to `Active`; no other status can result. -/
theorem c9_token_refresh_reads_amount
    (acct : SponsoredAccount) (info : AccountInfo)
    (h : acct.accountType = .token) :
    (refreshStatus acct (.found info) = .empty ↔
      72 ≤ info.data.length ∧ readUInt64LE info.data 64 = 0) ∧
    (info.data.length < 72 → refreshStatus acct (.found info) = .active) ∧
    (refreshStatus acct (.found info) = .empty ∨
      refreshStatus acct (.found info) = .active) := by
  have hs : refreshStatus acct (.found info) =
      if 72 ≤ info.data.length then
        if readUInt64LE info.data 64 = 0 then .empty else .active
      else .active := by
    simp [refreshStatus, h]
  rw [hs]
  by_cases h72 : 72 ≤ info.data.length
  · by_cases hz : readUInt64LE info.data 64 = 0
    · simp [h72, hz]
    · simp [h72, hz]
  · simp [h72]

set_option maxRecDepth 4000 in
/-- Witness for C9 at the zero-balance token state `infoZero`. -/
theorem c9_token_refresh_reads_amount_witness :
    tokAcctW.accountType = .token ∧
    ((refreshStatus tokAcctW (.found infoZero) = .empty ↔
      72 ≤ infoZero.data.length ∧ readUInt64LE infoZero.data 64 = 0) ∧
    (infoZero.data.length < 72 →
      refreshStatus tokAcctW (.found infoZero) = .active) ∧
    (refreshStatus tokAcctW (.found infoZero) = .empty ∨
      refreshStatus tokAcctW (.found infoZero) = .active)) :=
  ⟨rfl, c9_token_refresh_reads_amount tokAcctW infoZero rfl⟩

/-- **C10.** A thrown signature-history lookup fails open: the recent-write
check reports no recent writes, and validation proceeds exactly as it
would on an empty history — the whole `validateAccount` result coincides
with the one for the same environment with an empty (error-free)
history. -/
theorem c10_recent_write_error_fails_open
    (cfg : SafetyConfig) (keypair : Option String) (acct : SponsoredAccount)
    (env : ChainEnv) (h : env.sigHistory = .error ()) :
    hasRecentWrites cfg env = false ∧
    validateAccount cfg keypair acct env =
      validateAccount cfg keypair acct { env with sigHistory := .ok [] } := by
  have hrw : hasRecentWrites cfg env = false := by
    simp [hasRecentWrites, h]
  have hrw2 : hasRecentWrites cfg { env with sigHistory := .ok [] } = false := by
    simp [hasRecentWrites]
  refine ⟨hrw, ?_⟩
  simp only [validateAccount, hrw, hrw2]

/-- Witness for C10 at the erroring environment `envSigErr`. -/
theorem c10_recent_write_error_fails_open_witness :
    hasRecentWrites DEFAULT_SAFETY_CONFIG envSigErr = false ∧
    validateAccount DEFAULT_SAFETY_CONFIG (some "OPKEY") tokAcctW envSigErr =
      validateAccount DEFAULT_SAFETY_CONFIG (some "OPKEY") tokAcctW
        { envSigErr with sigHistory := .ok [] } :=
  c10_recent_write_error_fails_open DEFAULT_SAFETY_CONFIG (some "OPKEY")
    tokAcctW envSigErr rfl

/-- **C8 (amended).** A zero-balance token account that passes the deny,
allow, inactivity, recent-write, existence and value-cap checks but whose
recorded on-chain owner differs from the caller's signing identity is
rejected with `canReclaim = false`, the dedicated not-the-owner reason
("Cannot close: not the token account owner", distinguishing sponsorship
from ownership) and risk level `Medium` (not `Blocked`). -/
theorem c8_not_owner_rejected_medium
    (cfg : SafetyConfig) (k : String) (acct : SponsoredAccount)
    (env : ChainEnv) (ta : TokenAccountState) (info : AccountInfo)
    (htok : acct.accountType = .token)
    (hlook : env.tokenLookup = .ok ta)
    (hzero : ta.amount = 0)
    (hown : ta.owner ≠ k)
    (hdeny : acct.address ∉ cfg.denyList)
    (hallow : ∀ l, cfg.allowList = some l → acct.address ∈ l)
    (hage : env.now - (acct.createdAt : Int) * 1000 ≥
      (cfg.minInactiveDays : Int) * 24 * 60 * 60 * 1000)
    (hrw : hasRecentWrites cfg env = false)
    (hinfo : env.accountInfo = some info)
    (hmax : info.lamports ≤ cfg.maxReclaimPerAccount) :
    validateAccount cfg (some k) acct env =
      { address := acct.address
        canReclaim := false
        reason := .notTokenOwner
        riskLevel := .medium
        checks :=
          { inDenyList := false
            hasRecentWrites := false
            meetsInactivityThreshold := true
            isEmptyOrZeroBalance := true
            ownershipVerified := false
            belowMaxReclaim := true } } := by
  cases hcase : cfg.allowList with
  | none =>
    simp [validateAccount, hdeny, hcase, hage, hrw, hinfo, hmax, htok,
      hlook, hzero, hown]
  | some l =>
    have hmem : acct.address ∈ l := hallow l hcase
    simp [validateAccount, hdeny, hcase, hmem, hage, hrw, hinfo, hmax,
      htok, hlook, hzero, hown]

/-- Witness for the amended C8 statement, at `tokAcctW` under
`envNotOwner` with caller key `"OPKEY"`. -/
theorem c8_not_owner_rejected_medium_witness :
    validateAccount DEFAULT_SAFETY_CONFIG (some "OPKEY") tokAcctW
      envNotOwner =
      { address := tokAcctW.address
        canReclaim := false
        reason := .notTokenOwner
        riskLevel := .medium
        checks :=
          { inDenyList := false
            hasRecentWrites := false
            meetsInactivityThreshold := true
            isEmptyOrZeroBalance := true
            ownershipVerified := false
            belowMaxReclaim := true } } :=
  c8_not_owner_rejected_medium DEFAULT_SAFETY_CONFIG "OPKEY" tokAcctW
    envNotOwner ⟨0, "U1"⟩ ⟨2039280, []⟩ rfl rfl rfl (by decide) (by decide)
    (fun l hl => Option.noConfusion hl) (by decide) rfl rfl (by decide)

/-- **C6.** Ingesting one successful transaction whose fee payer is the
operator and whose single instruction is an associated-token-account
create with `payer` the operator and `wallet` a distinct non-program
address produces exactly one tracked account: sponsor the operator,
beneficiary the wallet, confidence `High`, kind `Token`, the fixed ATA
rent of 2039280 lamports, status `Active`, with both lifetime counters
bumped accordingly. -/
theorem c6_ata_sponsorship_ingested
    (op acctAddr wallet sig : String) (bt : Option Nat) (nf : Nat)
    (hne : wallet ≠ op) (hnp : isProgram wallet = false) :
    ingestTransactionHistory op nf (newRegistry op)
      [(sig, .tx (ataTx op acctAddr wallet bt))] =
      { operator := op
        lastProcessedSignature := some sig
        totalTransactionsProcessed := 1
        accounts := [ataRec op acctAddr wallet sig (bt.getD nf)]
        metrics := ⟨1, 2039280, 0, 0⟩ } := by
  simp [ingestTransactionHistory, ingestStep, isSignatureProcessed, sigIn,
    newRegistry, extractSponsoredAccounts, ataTx, calculateConfidence,
    hne, hnp, ingestCandidate, isAccountTracked, trackedIn, ataRec]

/-- Witness for C6: operator `"OP1"`, wallet `"U1"`, transaction `"T1"`. -/
theorem c6_ata_sponsorship_ingested_witness :
    ingestTransactionHistory "OP1" 0 (newRegistry "OP1")
      [("T1", .tx (ataTx "OP1" "ATA1" "U1" (some 700)))] =
      { operator := "OP1"
        lastProcessedSignature := some "T1"
        totalTransactionsProcessed := 1
        accounts := [ataRec "OP1" "ATA1" "U1" "T1" ((some 700).getD 0)]
        metrics := ⟨1, 2039280, 0, 0⟩ } :=
  c6_ata_sponsorship_ingested "OP1" "ATA1" "U1" "T1" (some 700) 0
    (by decide) (by decide)

/-- In dry-run mode, one loop iteration dispatches nothing, fires no
callback, and leaves the dry-run flag and analyzed count untouched. -/
theorem reclaimStep_dry_effects (cfg : SafetyConfig) (keypair : Option String)
    (timestamp : String) (treasuryBefore : Nat) (st : ExecOutcome)
    (item : SponsoredAccount × ReclaimEnv) :
    (reclaimStep cfg keypair true timestamp treasuryBefore st item).sentTxs =
      st.sentTxs ∧
    (reclaimStep cfg keypair true timestamp treasuryBefore st
      item).callbacks = st.callbacks ∧
    (reclaimStep cfg keypair true timestamp treasuryBefore st
      item).report.dryRun = st.report.dryRun ∧
    (reclaimStep cfg keypair true timestamp treasuryBefore st
      item).report.accountsAnalyzed = st.report.accountsAnalyzed := by
  obtain ⟨acct, env⟩ := item
  cases hv : (validateAccount cfg keypair acct env.vEnv).canReclaim with
  | false => simp [reclaimStep, hv]
  | true =>
    cases hb : env.balanceInfo with
    | none => simp [reclaimStep, hv, hb]
    | some info => simp [reclaimStep, hv, hb]

/-- The dry-run invariants of `reclaimStep_dry_effects`, folded over any
candidate list. -/
theorem foldl_reclaimStep_dry (cfg : SafetyConfig) (keypair : Option String)
    (timestamp : String) (treasuryBefore : Nat) :
    ∀ (l : List (SponsoredAccount × ReclaimEnv)) (st : ExecOutcome),
    (l.foldl (reclaimStep cfg keypair true timestamp treasuryBefore)
      st).sentTxs = st.sentTxs ∧
    (l.foldl (reclaimStep cfg keypair true timestamp treasuryBefore)
      st).callbacks = st.callbacks ∧
    (l.foldl (reclaimStep cfg keypair true timestamp treasuryBefore)
      st).report.dryRun = st.report.dryRun ∧
    (l.foldl (reclaimStep cfg keypair true timestamp treasuryBefore)
      st).report.accountsAnalyzed = st.report.accountsAnalyzed := by
  intro l
  induction l with
  | nil => intro st; exact ⟨rfl, rfl, rfl, rfl⟩
  | cons item rest ih =>
    intro st
    have h1 := reclaimStep_dry_effects cfg keypair timestamp treasuryBefore
      st item
    have h2 := ih (reclaimStep cfg keypair true timestamp treasuryBefore st
      item)
    refine ⟨?_, ?_, ?_, ?_⟩
    · exact h2.1.trans h1.1
    · exact h2.2.1.trans h1.2.1
    · exact h2.2.2.1.trans h1.2.2.1
    · exact h2.2.2.2.trans h1.2.2.2

/-- **C4.** A dry run mutates nothing: `executeReclaim` with
`dryRun = true` confirms no on-chain transaction (so no account balance
changes) and never fires the per-account success callback (so the
registry's status and metrics are never touched through it), while still
producing a `ReclaimReport` — the same record type as a live run — with
the dry-run flag set and every candidate counted as analyzed. -/
theorem c4_dry_run_no_mutation (cfg : SafetyConfig) (keypair : Option String)
    (treasury : String) (candidates : List (SponsoredAccount × ReclaimEnv))
    (runId timestamp : String) (treasuryBefore : Nat) :
    (executeReclaim cfg keypair treasury candidates true runId timestamp
      treasuryBefore).sentTxs = [] ∧
    (executeReclaim cfg keypair treasury candidates true runId timestamp
      treasuryBefore).callbacks = [] ∧
    (executeReclaim cfg keypair treasury candidates true runId timestamp
      treasuryBefore).report.dryRun = true ∧
    (executeReclaim cfg keypair treasury candidates true runId timestamp
      treasuryBefore).report.accountsAnalyzed = candidates.length := by
  have h := foldl_reclaimStep_dry cfg keypair timestamp treasuryBefore
    (candidates.take cfg.maxAccountsPerRun)
  exact h _

/-- Ingesting a candidate whose address is already tracked is a complete
no-op: nothing is appended and no counter moves (first-seen wins). -/
theorem ingestCandidate_tracked_noop (reg : Registry) (c : SponsoredAccount)
    (h : trackedIn reg.accounts c.address = true) :
    ingestCandidate reg c = reg := by
  simp [ingestCandidate, isAccountTracked, h]

/-- `ingestCandidate` only ever appends to the account list. -/
theorem ingestCandidate_accounts_append (reg : Registry)
    (c : SponsoredAccount) :
    ∃ l, (ingestCandidate reg c).accounts = reg.accounts ++ l := by
  cases h : isAccountTracked reg c.address with
  | true => exact ⟨[], by simp [ingestCandidate, h]⟩
  | false => exact ⟨[c], by simp [ingestCandidate, h]⟩

/-- Folding `ingestCandidate` only ever appends to the account list. -/
theorem foldl_ingestCandidate_accounts_append :
    ∀ (cs : List SponsoredAccount) (reg : Registry),
    ∃ l, (cs.foldl ingestCandidate reg).accounts = reg.accounts ++ l
  | [], reg => ⟨[], by simp⟩
  | c :: cs, reg => by
    obtain ⟨l1, h1⟩ := ingestCandidate_accounts_append reg c
    obtain ⟨l2, h2⟩ :=
      foldl_ingestCandidate_accounts_append cs (ingestCandidate reg c)
    exact ⟨l1 ++ l2, by rw [List.foldl_cons, h2, h1, List.append_assoc]⟩

/-- Address tracking is preserved under appending accounts. -/
theorem trackedIn_append_left (accs l : List SponsoredAccount)
    (address : String) (h : trackedIn accs address = true) :
    trackedIn (accs ++ l) address = true := by
  unfold trackedIn at h ⊢
  rw [List.any_append, h, Bool.true_or]

/-- Signature tracking is preserved under appending accounts. -/
theorem sigIn_append_left (accs l : List SponsoredAccount)
    (signature : String) (h : sigIn accs signature = true) :
    sigIn (accs ++ l) signature = true := by
  unfold sigIn at h ⊢
  rw [List.any_append, h, Bool.true_or]

/-- Absorption is preserved under appending accounts. -/
theorem absorbs_append (op : String) (nf : Nat)
    (accs l : List SponsoredAccount) (item : String × FetchResult)
    (h : absorbs op nf accs item) : absorbs op nf (accs ++ l) item := by
  obtain ⟨sig, fr⟩ := item
  rcases h with h | h
  · exact Or.inl (sigIn_append_left accs l sig h)
  · cases fr with
    | failed => exact Or.inr trivial
    | notFound => exact Or.inr trivial
    | tx t =>
      rcases h with h | h
      · exact Or.inr (Or.inl h)
      · exact Or.inr (Or.inr fun c hc =>
          trackedIn_append_left accs l c.address (h c hc))

/-- One ingestion-loop iteration only ever appends to the account list. -/
theorem ingestStep_accounts_append (op : String) (nf : Nat) (reg : Registry)
    (item : String × FetchResult) :
    ∃ l, (ingestStep op nf reg item).accounts = reg.accounts ++ l := by
  obtain ⟨sig, fr⟩ := item
  cases hsig : isSignatureProcessed reg sig with
  | true => exact ⟨[], by simp [ingestStep, hsig]⟩
  | false =>
    cases fr with
    | failed => exact ⟨[], by simp [ingestStep, hsig]⟩
    | notFound => exact ⟨[], by simp [ingestStep, hsig]⟩
    | tx t =>
      cases he : t.err with
      | true => exact ⟨[], by simp [ingestStep, hsig, he]⟩
      | false =>
        obtain ⟨l, hl⟩ := foldl_ingestCandidate_accounts_append
          (extractSponsoredAccounts op nf t sig) reg
        exact ⟨l, by simp [ingestStep, hsig, he, hl]⟩

/-- Folding the ingestion loop only ever appends to the account list. -/
theorem foldl_ingestStep_accounts_append (op : String) (nf : Nat) :
    ∀ (items : List (String × FetchResult)) (reg : Registry),
    ∃ l, ((items.foldl (ingestStep op nf) reg).accounts = reg.accounts ++ l)
  | [], reg => ⟨[], by simp⟩
  | it :: items, reg => by
    obtain ⟨l1, h1⟩ := ingestStep_accounts_append op nf reg it
    obtain ⟨l2, h2⟩ := foldl_ingestStep_accounts_append op nf items
      (ingestStep op nf reg it)
    exact ⟨l1 ++ l2, by rw [List.foldl_cons, h2, h1, List.append_assoc]⟩

/-- After folding `ingestCandidate` over a candidate list, every candidate
of the list is tracked by address. -/
theorem foldl_ingestCandidate_tracked :
    ∀ (cs : List SponsoredAccount) (reg : Registry) (c : SponsoredAccount),
    c ∈ cs →
    trackedIn ((cs.foldl ingestCandidate reg).accounts) c.address = true
  | [], _, _, h => absurd h (List.not_mem_nil _)
  | c0 :: cs, reg, c, h => by
    rw [List.foldl_cons]
    rcases List.mem_cons.mp h with rfl | hmem
    · have hbase : trackedIn (ingestCandidate reg c).accounts c.address =
          true := by
        cases htr : isAccountTracked reg c.address with
        | true =>
          rw [ingestCandidate_tracked_noop reg c htr]
          exact htr
        | false =>
          simp [ingestCandidate, htr, trackedIn, List.any_append]
      obtain ⟨l, hl⟩ :=
        foldl_ingestCandidate_accounts_append cs (ingestCandidate reg c)
      rw [hl]
      exact trackedIn_append_left _ l c.address hbase
    · exact foldl_ingestCandidate_tracked cs (ingestCandidate reg c0) c hmem

/-- After one ingestion-loop iteration, the processed item is absorbed:
re-running it can no longer change the account set or the counters. -/
theorem ingestStep_absorbs_self (op : String) (nf : Nat) (reg : Registry)
    (item : String × FetchResult) :
    absorbs op nf (ingestStep op nf reg item).accounts item := by
  obtain ⟨sig, fr⟩ := item
  cases hsig : isSignatureProcessed reg sig with
  | true =>
    have hstep : ingestStep op nf reg (sig, fr) = reg := by
      simp [ingestStep, hsig]
    exact Or.inl (by rw [hstep]; exact hsig)
  | false =>
    cases fr with
    | failed => exact Or.inr trivial
    | notFound => exact Or.inr trivial
    | tx t =>
      cases he : t.err with
      | true => exact Or.inr (Or.inl he)
      | false =>
        refine Or.inr (Or.inr fun c hc => ?_)
        have hacc : (ingestStep op nf reg (sig, .tx t)).accounts =
            ((extractSponsoredAccounts op nf t sig).foldl ingestCandidate
              reg).accounts := by
          simp [ingestStep, hsig, he]
        rw [hacc]
        exact foldl_ingestCandidate_tracked _ reg c hc

/-- Folding `ingestCandidate` over candidates that are all tracked already
is the identity on the registry. -/
theorem foldl_ingestCandidate_noop :
    ∀ (cs : List SponsoredAccount) (reg : Registry),
    (∀ c ∈ cs, trackedIn reg.accounts c.address = true) →
    cs.foldl ingestCandidate reg = reg
  | [], _, _ => rfl
  | c :: cs, reg, h => by
    rw [List.foldl_cons,
      ingestCandidate_tracked_noop reg c (h c (List.mem_cons_self c cs))]
    exact foldl_ingestCandidate_noop cs reg
      (fun c' hc' => h c' (List.mem_cons_of_mem _ hc'))

/-- An ingestion-loop iteration over an absorbed item changes neither the
account set nor the metrics. -/
theorem ingestStep_noop_of_absorbs (op : String) (nf : Nat) (reg : Registry)
    (item : String × FetchResult)
    (h : absorbs op nf reg.accounts item) :
    (ingestStep op nf reg item).accounts = reg.accounts ∧
    (ingestStep op nf reg item).metrics = reg.metrics := by
  obtain ⟨sig, fr⟩ := item
  cases hsig : isSignatureProcessed reg sig with
  | true =>
    have hstep : ingestStep op nf reg (sig, fr) = reg := by
      simp [ingestStep, hsig]
    rw [hstep]
    exact ⟨rfl, rfl⟩
  | false =>
    cases fr with
    | failed =>
      have hstep : ingestStep op nf reg (sig, .failed) = reg := by
        simp [ingestStep, hsig]
      rw [hstep]
      exact ⟨rfl, rfl⟩
    | notFound =>
      exact ⟨by simp [ingestStep, hsig], by simp [ingestStep, hsig]⟩
    | tx t =>
      rcases h with h | h
      · unfold isSignatureProcessed at hsig
        rw [hsig] at h
        exact absurd h (by simp)
      · rcases h with he | hall
        · exact ⟨by simp [ingestStep, hsig, he],
            by simp [ingestStep, hsig, he]⟩
        · have hfold := foldl_ingestCandidate_noop
            (extractSponsoredAccounts op nf t sig) reg hall
          cases he : t.err with
          | true => exact ⟨by simp [ingestStep, hsig, he],
              by simp [ingestStep, hsig, he]⟩
          | false => exact ⟨by simp [ingestStep, hsig, he, hfold],
              by simp [ingestStep, hsig, he, hfold]⟩

/-- Absorption is preserved by any further ingestion-loop iteration. -/
theorem ingestStep_preserves_absorbs (op : String) (nf : Nat)
    (reg : Registry) (item item' : String × FetchResult)
    (h : absorbs op nf reg.accounts item') :
    absorbs op nf (ingestStep op nf reg item).accounts item' := by
  obtain ⟨l, hl⟩ := ingestStep_accounts_append op nf reg item
  rw [hl]
  exact absorbs_append op nf reg.accounts l item' h

/-- Absorption is preserved by folding the ingestion loop. -/
theorem foldl_ingestStep_preserves_absorbs (op : String) (nf : Nat) :
    ∀ (items : List (String × FetchResult)) (reg : Registry)
      (item' : String × FetchResult),
    absorbs op nf reg.accounts item' →
    absorbs op nf ((items.foldl (ingestStep op nf) reg).accounts) item'
  | [], _, _, h => h
  | it :: items, reg, item', h => by
    rw [List.foldl_cons]
    exact foldl_ingestStep_preserves_absorbs op nf items _ item'
      (ingestStep_preserves_absorbs op nf reg it item' h)

/-- After folding the ingestion loop over a history, every item of that
history is absorbed by the resulting account set. -/
theorem foldl_ingestStep_absorbs_all (op : String) (nf : Nat) :
    ∀ (items : List (String × FetchResult)) (reg : Registry)
      (item : String × FetchResult), item ∈ items →
    absorbs op nf ((items.foldl (ingestStep op nf) reg).accounts) item
  | [], _, _, h => absurd h (List.not_mem_nil _)
  | it :: items, reg, item, h => by
    rw [List.foldl_cons]
    rcases List.mem_cons.mp h with rfl | hmem
    · exact foldl_ingestStep_preserves_absorbs op nf items _ item
        (ingestStep_absorbs_self op nf reg item)
    · exact foldl_ingestStep_absorbs_all op nf items _ item hmem

/-- Folding the ingestion loop over a fully absorbed history changes
neither the account set nor the metrics. -/
theorem foldl_ingestStep_noop_of_absorbs (op : String) (nf : Nat) :
    ∀ (items : List (String × FetchResult)) (reg : Registry),
    (∀ item ∈ items, absorbs op nf reg.accounts item) →
    ((items.foldl (ingestStep op nf) reg).accounts = reg.accounts ∧
     (items.foldl (ingestStep op nf) reg).metrics = reg.metrics)
  | [], _, _ => ⟨rfl, rfl⟩
  | it :: items, reg, h => by
    rw [List.foldl_cons]
    have h1 := ingestStep_noop_of_absorbs op nf reg it
      (h it (List.mem_cons_self it items))
    have h2 := foldl_ingestStep_noop_of_absorbs op nf items
      (ingestStep op nf reg it)
      (fun item hmem => by
        rw [h1.1]
        exact h item (List.mem_cons_of_mem _ hmem))
    exact ⟨h2.1.trans h1.1, h2.2.trans h1.2⟩

/-- The watermark update at the end of `ingestTransactionHistory` touches
neither the account set nor the metrics of the folded registry. -/
theorem ingestTransactionHistory_accounts_metrics (op : String) (nf : Nat)
    (reg : Registry) (history : List (String × FetchResult)) :
    (ingestTransactionHistory op nf reg history).accounts =
      (history.foldl (ingestStep op nf) reg).accounts ∧
    (ingestTransactionHistory op nf reg history).metrics =
      (history.foldl (ingestStep op nf) reg).metrics := by
  rcases h : history.getLast? with _ | it <;>
    simp [ingestTransactionHistory, h]

/-- **C7.** Ingestion is idempotent: running
`ingestTransactionHistory` a second time over the same fetched history
leaves the registry's account set and all lifetime counters exactly as
after the first run — every candidate a second pass rediscovers is
already tracked by address (or its whole transaction is skipped by
signature), so nothing is appended and no counter moves. -/
theorem c7_ingestion_idempotent (op : String) (nf : Nat) (reg : Registry)
    (history : List (String × FetchResult)) :
    (ingestTransactionHistory op nf
      (ingestTransactionHistory op nf reg history) history).accounts =
      (ingestTransactionHistory op nf reg history).accounts ∧
    (ingestTransactionHistory op nf
      (ingestTransactionHistory op nf reg history) history).metrics =
      (ingestTransactionHistory op nf reg history).metrics := by
  obtain ⟨ha1, _⟩ := ingestTransactionHistory_accounts_metrics op nf reg
    history
  obtain ⟨ha2, hm2⟩ := ingestTransactionHistory_accounts_metrics op nf
    (ingestTransactionHistory op nf reg history) history
  have habs : ∀ item ∈ history,
      absorbs op nf (ingestTransactionHistory op nf reg history).accounts
        item := by
    intro item hmem
    rw [ha1]
    exact foldl_ingestStep_absorbs_all op nf history reg item hmem
  obtain ⟨hfa, hfm⟩ := foldl_ingestStep_noop_of_absorbs op nf history
    (ingestTransactionHistory op nf reg history) habs
  exact ⟨ha2.trans hfa, hm2.trans hfm⟩

end Kora
